import Mathlib

/-!
Shallow embedding of the authentication / session-caching core of the
UpContacts contact-book backend (`upcontacts_api`): the JWT token codec
(`auth/jwt_handler.py`), the Redis identity cache (`redis_client.py`),
the session resolver (`auth/dependencies.py`) and the account lifecycle
routes (`auth/routes.py`), over the `User` model (`models.py`).

Wall-clock time is an explicit `Nat` parameter (seconds); the database is a
list of `User` rows queried with first-match semantics mirroring
SQLAlchemy's `.first()`; the Redis cache is an association list keyed by
email with absolute expiry instants.
-/

namespace UpContacts

/-- A JSON value as stored in the Redis cache (`json.dumps` of a Python
dict whose values are ints, strings, bools or `None`). -/
inductive JVal where
  | s (v : String)
  | i (v : Int)
  | b (v : Bool)
  | null
deriving DecidableEq, Repr

/-- A Python dict serialized into the cache: ordered key/value pairs. -/
abbrev JDict := List (String × JVal)

/-- Dict key lookup (`d[k]` / `d.get(k)`): first pair with the key. -/
def jget (d : JDict) (k : String) : Option JVal :=
  (d.find? (fun p => p.1 = k)).map (fun p => p.2)

/-- `models.py` `User` row: id, email, hashed password, verification flag,
one-time verification token, one-time reset token with absolute expiry,
avatar URL. (`created_at` is omitted: no modeled operation reads it.) -/
structure User where
  id : Int
  email : String
  hashed_password : String
  is_verified : Bool
  verification_token : Option String
  reset_token : Option String
  reset_token_expires : Option Nat
  avatar_url : Option String
deriving DecidableEq, Repr

/-- An HTTPException raised by a route: status code and detail message. -/
structure Http where
  status : Nat
  detail : String
deriving DecidableEq, Repr

/-- Rewrite the first row satisfying `p` (SQLAlchemy: query `.first()`,
mutate the returned row, commit). -/
def updateFirst (p : User → Bool) (f : User → User) : List User → List User
  | [] => []
  | u :: us => if p u then f u :: us else u :: updateFirst p f us

/-! ### Password hashing (`auth/jwt_utils.py`, bcrypt collaborator)

Deterministic model of the external bcrypt library: hashing tags the
password, and verification succeeds exactly on the hashing password. -/

def get_password_hash (password : String) : String :=
  "$2b$12$" ++ password

def verify_password (plain hashed : String) : Bool :=
  hashed = get_password_hash plain

/-! ### Token codec (`auth/jwt_handler.py`) -/

/-- `SECRET_KEY` environment value (out-of-scope configuration). -/
def SECRET_KEY : String := "env-secret"

/-- `ALGORITHM` environment value, default `HS256`. -/
def ALGORITHM : String := "HS256"

/-- Default access-token lifetime in minutes (env default 15). -/
def ACCESS_TOKEN_EXPIRE_MINUTES : Nat := 15

/-- Default refresh-token lifetime in days (env default 7). -/
def REFRESH_TOKEN_EXPIRE_DAYS : Nat := 7

/-- A signed JWT as produced by `jose.jwt.encode`: the encoded claims
dict (string claims), the `exp` claim, and the key/algorithm the token
was signed with (the model of the signature: `jwt.decode` accepts the
token iff key and algorithm match). -/
structure Jwt where
  data : List (String × String)
  exp : Nat
  key : String
  alg : String
deriving DecidableEq, Repr

/-- `create_access_token(data, expires_delta=None)`: expiry is now plus
`expires_delta` or the default access lifetime. -/
def create_access_token (data : List (String × String))
    (expires_delta : Option Nat) (now : Nat) : Jwt :=
  ⟨data, now + (expires_delta.getD (ACCESS_TOKEN_EXPIRE_MINUTES * 60)),
    SECRET_KEY, ALGORITHM⟩

/-- `create_refresh_token(data, expires_delta=None)`. -/
def create_refresh_token (data : List (String × String))
    (expires_delta : Option Nat) (now : Nat) : Jwt :=
  ⟨data, now + (expires_delta.getD (REFRESH_TOKEN_EXPIRE_DAYS * 24 * 3600)),
    SECRET_KEY, ALGORITHM⟩

/-- `decode_token(token)`: returns the payload (claims dict plus `exp`)
iff the signature verifies against `SECRET_KEY`/`ALGORITHM` and the
token is unexpired (python-jose rejects iff `exp < now`); any failure
uniformly yields `none`. -/
def decode_token (tok : Jwt) (now : Nat) :
    Option (List (String × String) × Nat) :=
  if tok.key = SECRET_KEY ∧ tok.alg = ALGORITHM ∧ ¬ tok.exp < now then
    some (tok.data, tok.exp)
  else
    none

/-! ### Identity cache (`redis_client.py`) -/

/-- A cached value with its absolute Redis expiry instant. -/
structure CacheEntry where
  value : JDict
  expiresAt : Nat
deriving DecidableEq, Repr

/-- The Redis cache: association list keyed by `user:{email}` key,
modeled by the email itself. -/
abbrev Cache := List (String × CacheEntry)

/-- `cache_user(user_email, user_data, expire=3600)`: `SETEX` — store or
overwrite with a fresh time-to-live. -/
def cache_user (c : Cache) (user_email : String) (user_data : JDict)
    (expire : Nat) (now : Nat) : Cache :=
  (user_email, ⟨user_data, now + expire⟩) ::
    c.filter (fun p => p.1 ≠ user_email)

/-- `get_cached_user(user_email)`: the stored dict while the key has not
expired, otherwise `none`. -/
def get_cached_user (c : Cache) (user_email : String) (now : Nat) :
    Option JDict :=
  match c.find? (fun p => p.1 = user_email) with
  | some p => if now < p.2.expiresAt then some p.2.value else none
  | none => none

/-- `delete_cached_user(user_email)`. -/
def delete_cached_user (c : Cache) (user_email : String) : Cache :=
  c.filter (fun p => p.1 ≠ user_email)

/-- Python `None`-or-string field serialized to JSON. -/
def jOfOptStr : Option String → JVal
  | none => JVal.null
  | some s => JVal.s s

/-- The dict literal written to the cache at login (`routes.py` 85-91)
and at the resolver's cache fill (`dependencies.py` 57-62):
`{"id": ..., "email": ..., "is_verified": ..., "avatar_url": ...}`. -/
def userCacheDict (u : User) : JDict :=
  [("id", JVal.i u.id), ("email", JVal.s u.email),
   ("is_verified", JVal.b u.is_verified),
   ("avatar_url", jOfOptStr u.avatar_url)]

/-- The dict literal written after an avatar upload (`routes.py` 183-188),
carrying the freshly uploaded `avatar_url`. -/
def avatarCacheDict (u : User) (avatar_url : String) : JDict :=
  [("id", JVal.i u.id), ("email", JVal.s u.email),
   ("is_verified", JVal.b u.is_verified),
   ("avatar_url", JVal.s avatar_url)]

/-! ### Session resolver (`auth/dependencies.py`) -/

/-- Outcome of `get_current_user`: an authenticated `User`, an
`HTTPException`, or an unhandled exception (`crash`: a malformed cache
entry would raise `KeyError`/`TypeError`; no writer in this codebase
produces one). -/
inductive Resolved where
  | ok (u : User)
  | err (e : Http)
  | crash
deriving DecidableEq, Repr

/-- Materialize a `User` from a cached dict (`dependencies.py` 32-39):
`cached_user["id"]`, `cached_user["email"]`, empty `hashed_password`,
`cached_user.get("is_verified", False)`, `cached_user.get("avatar_url")`.
`none` models the exception on a dict of an unexpected shape. -/
def userFromCache (d : JDict) : Option User :=
  match jget d "id", jget d "email" with
  | some (JVal.i i), some (JVal.s e) =>
    match (jget d "is_verified").getD (JVal.b false),
          (jget d "avatar_url").getD JVal.null with
    | JVal.b v, JVal.s a =>
      some ⟨i, e, "", v, none, none, none, some a⟩
    | JVal.b v, JVal.null =>
      some ⟨i, e, "", v, none, none, none, none⟩
    | _, _ => none
  | _, _ => none

/-- `get_current_user(token, db)`: decode the bearer token (failure ⇒ 401
"Неверный токен"); extract `sub` (absent ⇒ same 401); on a live cache hit
materialize the user from the snapshot and return it; on a miss query the
store (absent ⇒ 401 "Пользователь не найден"; unverified ⇒ 403), then
cache a fresh snapshot and return the row. -/
def get_current_user (tok : Jwt) (db : List User) (cache : Cache)
    (now : Nat) : Resolved × Cache :=
  match decode_token tok now with
  | none => (Resolved.err ⟨401, "Неверный токен"⟩, cache)
  | some payload =>
    match payload.1.find? (fun p => p.1 = "sub") with
    | none => (Resolved.err ⟨401, "Неверный токен"⟩, cache)
    | some subPair =>
      let email := subPair.2
      match get_cached_user cache email now with
      | some d =>
        match userFromCache d with
        | some u => (Resolved.ok u, cache)
        | none => (Resolved.crash, cache)
      | none =>
        match db.find? (fun u => u.email = email) with
        | none => (Resolved.err ⟨401, "Пользователь не найден"⟩, cache)
        | some u =>
          if ¬ u.is_verified then
            (Resolved.err ⟨403, "Email не подтвержден. Проверьте почту."⟩,
              cache)
          else
            (Resolved.ok u,
              cache_user cache email (userCacheDict u) 3600 now)

/-! ### Account lifecycle routes (`auth/routes.py`) -/

/-- `register(user_create)`: 409 if the email exists; otherwise persist a
new unverified user with the hashed password and the freshly generated
verification token (`secrets.token_urlsafe`, passed in as a parameter),
and return the created row. The verification email is an out-of-band
collaborator call. -/
def register (db : List User) (email password : String)
    (verification_token : String) (newId : Int) :
    Except Http User × List User :=
  match db.find? (fun u => u.email = email) with
  | some _ =>
    (Except.error ⟨409, "Пользователь с таким email уже существует"⟩, db)
  | none =>
    let new_user : User :=
      ⟨newId, email, get_password_hash password, false,
        some verification_token, none, none, none⟩
    (Except.ok new_user, db ++ [new_user])

/-- `verify_email(token)`: look the user up by verification token (400 if
none); if already verified return the no-op message; otherwise set
`is_verified` and clear the verification token. -/
def verify_email (db : List User) (token : String) :
    Except Http String × List User :=
  match db.find? (fun u => u.verification_token = some token) with
  | none =>
    (Except.error ⟨400, "Неверный или истекший токен верификации"⟩, db)
  | some u =>
    if u.is_verified then
      (Except.ok "Email уже подтвержден", db)
    else
      (Except.ok "Email успешно подтвержден",
        updateFirst (fun v => v.verification_token = some token)
          (fun v => { v with is_verified := true,
                             verification_token := none }) db)

/-- `login(form_data)`: 401 if no such user or the password fails bcrypt
verification; 403 if the account is unverified; otherwise cache the
user snapshot and return fresh access and refresh tokens. -/
def login (db : List User) (cache : Cache) (username password : String)
    (now : Nat) : Except Http (Jwt × Jwt) × Cache :=
  match db.find? (fun u => u.email = username) with
  | none => (Except.error ⟨401, "Неверный email или пароль"⟩, cache)
  | some u =>
    if ¬ verify_password password u.hashed_password then
      (Except.error ⟨401, "Неверный email или пароль"⟩, cache)
    else if ¬ u.is_verified then
      (Except.error ⟨403, "Email не подтвержден. Проверьте почту."⟩, cache)
    else
      (Except.ok
        (create_access_token [("sub", u.email)] none now,
         create_refresh_token [("sub", u.email)] none now),
       cache_user cache u.email (userCacheDict u) 3600 now)

/-- `request_password_reset(reset_request)`: if the email is unknown,
return the generic message without touching anything (and send no mail);
otherwise store the fresh reset token with expiry now + 1 hour, send the
reset email, and return the same generic message. The `Bool` records
whether the collaborator mail call happened. -/
def request_password_reset (db : List User) (email : String)
    (reset_token : String) (now : Nat) :
    Except Http String × List User × Bool :=
  match db.find? (fun u => u.email = email) with
  | none => (Except.ok "Если email существует, письмо отправлено", db, false)
  | some _ =>
    (Except.ok "Если email существует, письмо отправлено",
      updateFirst (fun v => v.email = email)
        (fun v => { v with reset_token := some reset_token,
                           reset_token_expires := some (now + 3600) }) db,
      true)

/-- `reset_password(reset_data)`: look the user up by reset token (400 if
none); 400 "Токен истек" if the stored expiry has passed; otherwise
rehash the password, clear the reset token and its expiry, and delete the
user's cache entry. The outer `Option` is `none` when the expiry
comparison hits a `NULL` expiry (Python `None < datetime` raises
`TypeError`). -/
def reset_password (db : List User) (cache : Cache)
    (token new_password : String) (now : Nat) :
    Option (Except Http String) × List User × Cache :=
  match db.find? (fun u => u.reset_token = some token) with
  | none =>
    (some (Except.error ⟨400, "Неверный или истекший токен"⟩), db, cache)
  | some u =>
    match u.reset_token_expires with
    | none => (none, db, cache)
    | some e =>
      if e < now then
        (some (Except.error ⟨400, "Токен истек"⟩), db, cache)
      else
        (some (Except.ok "Пароль успешно изменен"),
          updateFirst (fun v => v.reset_token = some token)
            (fun v => { v with hashed_password :=
                                 get_password_hash new_password,
                               reset_token := none,
                               reset_token_expires := none }) db,
          delete_cached_user cache u.email)

/-- `upload_user_avatar(file, current_user)` success path: 400 on an
unsupported content type or a payload over 5 MiB; otherwise persist the
collaborator-returned `avatar_url` on the user's row, then invalidate and
rewrite the cache snapshot with the new URL. -/
def upload_user_avatar (db : List User) (cache : Cache)
    (current_user : User) (content_type : String) (size : Nat)
    (avatar_url : String) (now : Nat) :
    Except Http User × List User × Cache :=
  if ¬ (content_type = "image/jpeg" ∨ content_type = "image/png" ∨
        content_type = "image/jpg") then
    (Except.error ⟨400, "Поддерживаются только изображения: JPEG, PNG"⟩,
      db, cache)
  else if 5 * 1024 * 1024 < size then
    (Except.error ⟨400, "Размер файла не должен превышать 5MB"⟩, db, cache)
  else
    let updated := { current_user with avatar_url := some avatar_url }
    (Except.ok updated,
      updateFirst (fun v => v.id = current_user.id)
        (fun v => { v with avatar_url := some avatar_url }) db,
      cache_user (delete_cached_user cache current_user.email)
        current_user.email (avatarCacheDict current_user avatar_url)
        3600 now)

/-- The implicit pairing invariant: a row holds a reset token iff it
holds a reset-token expiry. -/
def resetInv (db : List User) : Prop :=
  ∀ u ∈ db, u.reset_token.isSome = u.reset_token_expires.isSome

instance (db : List User) : Decidable (resetInv db) := by
  unfold resetInv; infer_instance

/-! ### Helper lemmas -/

lemma find?_append_of_none {α : Type} {p : α → Bool} {l1 l2 : List α}
    (h : l1.find? p = none) : (l1 ++ l2).find? p = l2.find? p := by
  rw [List.find?_append, h, Option.none_or]

lemma updateFirst_append_of_none {p : User → Bool} {f : User → User}
    {l1 : List User} (l2 : List User) (h : ∀ v ∈ l1, p v = false) :
    updateFirst p f (l1 ++ l2) = l1 ++ updateFirst p f l2 := by
  induction l1 with
  | nil => rfl
  | cons a l ih =>
    have ha := h a (by simp)
    simp [updateFirst, ha, ih (fun v hv => h v (by simp [hv]))]

lemma mem_updateFirst {p : User → Bool} {f : User → User} {l : List User}
    {v : User} (h : v ∈ updateFirst p f l) : v ∈ l ∨ ∃ u ∈ l, v = f u := by
  induction l with
  | nil => simp [updateFirst] at h
  | cons a l ih =>
    by_cases hp : p a
    · simp [updateFirst, hp] at h
      rcases h with h | h
      · exact Or.inr ⟨a, by simp, h⟩
      · exact Or.inl (by simp [h])
    · simp [updateFirst, hp] at h
      rcases h with h | h
      · exact Or.inl (by simp [h])
      · rcases ih h with h' | ⟨u, hu, hv⟩
        · exact Or.inl (by simp [h'])
        · exact Or.inr ⟨u, by simp [hu], hv⟩

lemma reset_password_invalid_token (db : List User) (cache : Cache)
    (t np : String) (now : Nat)
    (h : ∀ v ∈ db, ¬ v.reset_token = some t) :
    (reset_password db cache t np now).1 =
      some (Except.error ⟨400, "Неверный или истекший токен"⟩) := by
  unfold reset_password
  rw [List.find?_eq_none.mpr (fun x hx => by simpa using h x hx)]

lemma request_password_reset_const_message (db : List User)
    (email rt : String) (now : Nat) :
    (request_password_reset db email rt now).1 =
      Except.ok "Если email существует, письмо отправлено" := by
  unfold request_password_reset
  cases db.find? (fun u => u.email = email) <;> rfl

lemma register_state (db : List User) (email pw t : String) (nid : Int)
    (hemail : db.find? (fun u => u.email = email) = none) :
    (register db email pw t nid).2 =
      db ++ [⟨nid, email, get_password_hash pw, false, some t,
        none, none, none⟩] := by
  simp [register, hemail]

lemma verify_email_after_register (db : List User) (email pw t : String)
    (nid : Int)
    (hemail : db.find? (fun u => u.email = email) = none)
    (hfresh : ∀ u ∈ db, ¬ u.verification_token = some t) :
    verify_email (register db email pw t nid).2 t =
      (Except.ok "Email успешно подтвержден",
       db ++ [⟨nid, email, get_password_hash pw, true, none,
         none, none, none⟩]) := by
  have hfalse : ∀ v ∈ db, (decide (v.verification_token = some t)) = false :=
    fun v hv => by simpa using hfresh v hv
  have hf : db.find? (fun u => u.verification_token = some t) = none :=
    List.find?_eq_none.mpr (fun x hx => by simpa using hfresh x hx)
  have hfind1 : (db ++ [(⟨nid, email, get_password_hash pw, false, some t,
      none, none, none⟩ : User)]).find?
        (fun u => u.verification_token = some t) =
      some ⟨nid, email, get_password_hash pw, false, some t,
        none, none, none⟩ := by
    rw [find?_append_of_none hf]; simp
  rw [register_state db email pw t nid hemail]
  unfold verify_email
  rw [hfind1]
  simp [updateFirst_append_of_none _ hfalse, updateFirst]

lemma userFromCache_no_password {d : JDict} {u : User}
    (h : userFromCache d = some u) : u.hashed_password = "" := by
  unfold userFromCache at h
  split at h
  · split at h <;> simp_all <;> subst h <;> rfl
  · simp_all

lemma mem_cache_user {c : Cache} {email : String} {d : JDict}
    {ex now : Nat} {k : String} {en : CacheEntry}
    (h : (k, en) ∈ cache_user c email d ex now) :
    (k, en) ∈ c ∨ en.value = d := by
  unfold cache_user at h
  rcases List.mem_cons.mp h with h | h
  · right; cases h; rfl
  · left; exact (List.mem_filter.mp h).1

lemma mem_delete_cached_user {c : Cache} {email k : String}
    {en : CacheEntry} (h : (k, en) ∈ delete_cached_user c email) :
    (k, en) ∈ c :=
  (List.mem_filter.mp h).1

lemma resetInv_updateFirst {p : User → Bool} {f : User → User}
    {db : List User} (h : resetInv db)
    (hf : ∀ v ∈ db, v.reset_token.isSome = v.reset_token_expires.isSome →
      (f v).reset_token.isSome = (f v).reset_token_expires.isSome) :
    resetInv (updateFirst p f db) := by
  intro u hu
  rcases mem_updateFirst hu with h1 | ⟨v, hv, rfl⟩
  · exact h u h1
  · exact hf v hv (h v hv)

/-! ### Claims -/

/-- C1, counterexample to the claim as stated: starting from an empty
store, register an account with verification token "t1". The first
`verify_email "t1"` succeeds, but the second call with the same token
does NOT succeed — it fails with 400 (the token was cleared by the first
call), contradicting "calling VerifyEmail(t) a second time with the same
token t also succeeds, reporting that the email is already verified". -/
theorem verifyEmail_twice_counterexample :
    (verify_email (register [] "a@x.com" "pw" "t1" 1).2 "t1").1 =
      Except.ok "Email успешно подтвержден" ∧
    (verify_email (verify_email (register [] "a@x.com" "pw" "t1" 1).2 "t1").2
        "t1").1 =
      Except.error ⟨400, "Неверный или истекший токен верификации"⟩ :=
  ⟨rfl, rfl⟩

/-- C1 (amended): for every account registered with a fresh verification
token t, the first `verify_email t` succeeds and transitions the account
to verified, clearing the verification token; a second call with the
same token t then fails with 400 InvalidToken, because no account holds
the token anymore. (The "already verified" no-op reply exists in the
code but is reachable only for an account that is verified while still
holding its verification token — a state the lifecycle never creates.) -/
theorem verifyEmail_not_idempotent (db : List User) (email pw t : String)
    (nid : Int)
    (hemail : db.find? (fun u => u.email = email) = none)
    (hfresh : ∀ u ∈ db, ¬ u.verification_token = some t) :
    (register db email pw t nid).1 =
      Except.ok ⟨nid, email, get_password_hash pw, false, some t,
        none, none, none⟩ ∧
    (verify_email (register db email pw t nid).2 t).1 =
      Except.ok "Email успешно подтвержден" ∧
    (verify_email (register db email pw t nid).2 t).2 =
      db ++ [⟨nid, email, get_password_hash pw, true, none,
        none, none, none⟩] ∧
    (verify_email (verify_email (register db email pw t nid).2 t).2 t).1 =
      Except.error ⟨400, "Неверный или истекший токен верификации"⟩ := by
  have hfalse : ∀ v ∈ db, (decide (v.verification_token = some t)) = false :=
    fun v hv => by simpa using hfresh v hv
  have hf : db.find? (fun u => u.verification_token = some t) = none :=
    List.find?_eq_none.mpr (fun x hx => by simpa using hfresh x hx)
  have hreg : (register db email pw t nid).2 =
      db ++ [⟨nid, email, get_password_hash pw, false, some t,
        none, none, none⟩] := by
    simp [register, hemail]
  have hfind1 : (db ++ [(⟨nid, email, get_password_hash pw, false, some t,
      none, none, none⟩ : User)]).find?
        (fun u => u.verification_token = some t) =
      some ⟨nid, email, get_password_hash pw, false, some t,
        none, none, none⟩ := by
    rw [find?_append_of_none hf]; simp
  have hver : verify_email (register db email pw t nid).2 t =
      (Except.ok "Email успешно подтвержден",
       db ++ [⟨nid, email, get_password_hash pw, true, none,
         none, none, none⟩]) := by
    rw [hreg]
    unfold verify_email
    rw [hfind1]
    simp [updateFirst_append_of_none _ hfalse, updateFirst]
  have hfind2 : (db ++ [(⟨nid, email, get_password_hash pw, true, none,
      none, none, none⟩ : User)]).find?
        (fun u => u.verification_token = some t) = none := by
    rw [find?_append_of_none hf]; simp
  refine ⟨by simp [register, hemail], by rw [hver], by rw [hver], ?_⟩
  rw [hver]
  unfold verify_email
  rw [hfind2]

/-- C1 witness: the amended theorem applied to the concrete empty store
and token "t1". -/
theorem verifyEmail_not_idempotent_witness :
    (register [] "a@x.com" "pw" "t1" 1).1 =
      Except.ok ⟨1, "a@x.com", get_password_hash "pw", false, some "t1",
        none, none, none⟩ ∧
    (verify_email (register [] "a@x.com" "pw" "t1" 1).2 "t1").1 =
      Except.ok "Email успешно подтвержден" ∧
    (verify_email (register [] "a@x.com" "pw" "t1" 1).2 "t1").2 =
      [] ++ [⟨1, "a@x.com", get_password_hash "pw", true, none,
        none, none, none⟩] ∧
    (verify_email
        (verify_email (register [] "a@x.com" "pw" "t1" 1).2 "t1").2 "t1").1 =
      Except.error ⟨400, "Неверный или истекший токен верификации"⟩ :=
  verifyEmail_not_idempotent [] "a@x.com" "pw" "t1" 1 rfl (by simp)

/-- C4: the token codec round-trips — decoding an access token issued
for subject `s` returns the payload carrying the original `sub` claim at
any time up to TTL (15 minutes) past issuance, and uniformly fails
(returns `none`) at any later time. -/
theorem token_codec_roundtrip (subject : String) (now t : Nat) :
    (t ≤ ACCESS_TOKEN_EXPIRE_MINUTES * 60 →
      decode_token (create_access_token [("sub", subject)] none now)
          (now + t) =
        some ([("sub", subject)], now + ACCESS_TOKEN_EXPIRE_MINUTES * 60)) ∧
    (ACCESS_TOKEN_EXPIRE_MINUTES * 60 < t →
      decode_token (create_access_token [("sub", subject)] none now)
          (now + t) = none) := by
  constructor <;> intro h <;>
    simp only [ACCESS_TOKEN_EXPIRE_MINUTES] at h <;>
    simp [decode_token, create_access_token, ACCESS_TOKEN_EXPIRE_MINUTES] <;>
    omega

/-- C4 witness: the round-trip theorem at subject "a@x.com", issuance
time 0, evaluated at the TTL boundary and just past it. -/
theorem token_codec_roundtrip_witness :
    decode_token (create_access_token [("sub", "a@x.com")] none 0) 900 =
      some ([("sub", "a@x.com")], 900) ∧
    decode_token (create_access_token [("sub", "a@x.com")] none 0) 901 =
      none :=
  ⟨(token_codec_roundtrip "a@x.com" 0 900).1 (by decide),
   (token_codec_roundtrip "a@x.com" 0 901).2 (by decide)⟩

/-- C7: `request_password_reset` is enumeration-safe — for an input
naming an existing identity and one naming an absent identity, both
calls return the identical generic 200 success message. -/
theorem reset_request_enumeration_safe (db : List User)
    (e1 e2 rt1 rt2 : String) (now1 now2 : Nat)
    (hpresent : ∃ u ∈ db, u.email = e1)
    (habsent : ∀ u ∈ db, ¬ u.email = e2) :
    (request_password_reset db e1 rt1 now1).1 =
      Except.ok "Если email существует, письмо отправлено" ∧
    (request_password_reset db e2 rt2 now2).1 =
      (request_password_reset db e1 rt1 now1).1 :=
  ⟨request_password_reset_const_message db e1 rt1 now1,
   by rw [request_password_reset_const_message,
          request_password_reset_const_message]⟩

/-- C7 witness: enumeration safety at a concrete one-user store. -/
theorem reset_request_enumeration_safe_witness :
    (request_password_reset
        [⟨1, "a@x.com", "h", true, none, none, none, none⟩]
        "a@x.com" "r1" 0).1 =
      Except.ok "Если email существует, письмо отправлено" ∧
    (request_password_reset
        [⟨1, "a@x.com", "h", true, none, none, none, none⟩]
        "ghost@x.com" "r2" 5).1 =
      (request_password_reset
        [⟨1, "a@x.com", "h", true, none, none, none, none⟩]
        "a@x.com" "r1" 0).1 :=
  reset_request_enumeration_safe _ "a@x.com" "ghost@x.com" "r1" "r2" 0 5
    ⟨⟨1, "a@x.com", "h", true, none, none, none, none⟩, by simp, rfl⟩
    (by simp)

/-- C8, counterexample to the claim as stated: with a valid token for
"ghost@x.com", an empty cache and an empty store, the resolver fails
with HTTP status 401 ("Пользователь не найден"), not 404 — so
account-not-found is NOT translated to a status distinct from the 401
used for invalid tokens. -/
theorem resolver_not_found_status_counterexample :
    (get_current_user (create_access_token [("sub", "ghost@x.com")] none 0)
        [] [] 0).1 =
      Resolved.err ⟨401, "Пользователь не найден"⟩ ∧ (401 : Nat) ≠ 404 :=
  ⟨rfl, by decide⟩

/-- C8 (amended): for every request bearing a token that verifies and
carries a subject absent from both the cache and the store, the resolver
fails with account-not-found, reported at the HTTP boundary as status
401 with detail "Пользователь не найден" — the same numeric status as
InvalidToken, distinguished only by the message. -/
theorem resolver_account_not_found (tok : Jwt) (db : List User)
    (cache : Cache) (now : Nat)
    (payload : List (String × String) × Nat) (sp : String × String)
    (hdec : decode_token tok now = some payload)
    (hsub : payload.1.find? (fun p => p.1 = "sub") = some sp)
    (hmiss : get_cached_user cache sp.2 now = none)
    (habsent : db.find? (fun u => u.email = sp.2) = none) :
    get_current_user tok db cache now =
      (Resolved.err ⟨401, "Пользователь не найден"⟩, cache) := by
  simp [get_current_user, hdec, hsub, hmiss, habsent]

/-- C8 witness: the amended theorem at a concrete valid token for an
identity absent from cache and store. -/
theorem resolver_account_not_found_witness :
    get_current_user (create_access_token [("sub", "ghost@x.com")] none 0)
        [] [] 0 =
      (Resolved.err ⟨401, "Пользователь не найден"⟩, []) :=
  resolver_account_not_found _ [] [] 0 ([("sub", "ghost@x.com")], 900)
    ("sub", "ghost@x.com") rfl rfl rfl rfl

/-- C2: on a verified token whose subject has a live cache entry, the
session resolver returns the account materialized from the cached
snapshot for EVERY store content (so no store query and no
verification-flag re-check can influence the result — in particular a
de-verified account still authenticates), the materialized account
carries an empty password-hash field, and once the cache entry is gone
(expired or invalidated) a de-verified account is rejected with 403. -/
theorem resolver_cache_hit_skips_verification (tok : Jwt) (cache : Cache)
    (now : Nat) (payload : List (String × String) × Nat)
    (sp : String × String) (d : JDict) (u : User)
    (hdec : decode_token tok now = some payload)
    (hsub : payload.1.find? (fun p => p.1 = "sub") = some sp)
    (hhit : get_cached_user cache sp.2 now = some d)
    (hmat : userFromCache d = some u) :
    (∀ db : List User,
      get_current_user tok db cache now = (Resolved.ok u, cache)) ∧
    u.hashed_password = "" ∧
    (∀ (db : List User) (now2 : Nat) (v : User),
      decode_token tok now2 = some payload →
      get_cached_user cache sp.2 now2 = none →
      db.find? (fun w => w.email = sp.2) = some v →
      v.is_verified = false →
      (get_current_user tok db cache now2).1 =
        Resolved.err ⟨403, "Email не подтвержден. Проверьте почту."⟩) := by
  refine ⟨fun db => ?_, userFromCache_no_password hmat, ?_⟩
  · simp [get_current_user, hdec, hsub, hhit, hmat]
  · intro db now2 v hdec2 hmiss2 hfind2 hver
    simp [get_current_user, hdec2, hsub, hmiss2, hfind2, hver]

/-- C2 witness: a long-lived token for "a@x.com", a cache snapshot
written by `cache_user` for the verified account, and a store in which
the account has since been de-verified: the resolver still returns the
cached account (with empty password hash); at time 5000, past the cache
TTL, the de-verified account is rejected with 403. -/
theorem resolver_cache_hit_skips_verification_witness :
    get_current_user
        (create_access_token [("sub", "a@x.com")] (some 1000000) 0)
        [⟨1, "a@x.com", "$2b$12$pw", false, none, none, none, none⟩]
        (cache_user [] "a@x.com"
          (userCacheDict ⟨1, "a@x.com", "$2b$12$pw", true,
            none, none, none, none⟩) 3600 0)
        100 =
      (Resolved.ok ⟨1, "a@x.com", "", true, none, none, none, none⟩,
       cache_user [] "a@x.com"
         (userCacheDict ⟨1, "a@x.com", "$2b$12$pw", true,
           none, none, none, none⟩) 3600 0) ∧
    ("" : String) = "" ∧
    (get_current_user
        (create_access_token [("sub", "a@x.com")] (some 1000000) 0)
        [⟨1, "a@x.com", "$2b$12$pw", false, none, none, none, none⟩]
        (cache_user [] "a@x.com"
          (userCacheDict ⟨1, "a@x.com", "$2b$12$pw", true,
            none, none, none, none⟩) 3600 0)
        5000).1 =
      Resolved.err ⟨403, "Email не подтвержден. Проверьте почту."⟩ := by
  have h := resolver_cache_hit_skips_verification
    (create_access_token [("sub", "a@x.com")] (some 1000000) 0)
    (cache_user [] "a@x.com"
      (userCacheDict ⟨1, "a@x.com", "$2b$12$pw", true,
        none, none, none, none⟩) 3600 0)
    100 ([("sub", "a@x.com")], 1000000) ("sub", "a@x.com")
    (userCacheDict ⟨1, "a@x.com", "$2b$12$pw", true, none, none, none, none⟩)
    ⟨1, "a@x.com", "", true, none, none, none, none⟩
    rfl rfl rfl rfl
  exact ⟨h.1 _, rfl,
    h.2.2 [⟨1, "a@x.com", "$2b$12$pw", false, none, none, none, none⟩]
      5000 ⟨1, "a@x.com", "$2b$12$pw", false, none, none, none, none⟩
      rfl rfl rfl rfl⟩

/-- C3: after a successful registration the account is unverified and
`login` with the registered credentials fails with 403 NotVerified;
after `verify_email` succeeds for the account, the same `login` succeeds
and returns an access token and a refresh token bound to the identity. -/
theorem login_gated_by_verification (db : List User) (cache : Cache)
    (email pw t : String) (nid : Int) (now : Nat)
    (hemail : db.find? (fun u => u.email = email) = none)
    (hfresh : ∀ u ∈ db, ¬ u.verification_token = some t) :
    (login (register db email pw t nid).2 cache email pw now).1 =
      Except.error ⟨403, "Email не подтвержден. Проверьте почту."⟩ ∧
    (verify_email (register db email pw t nid).2 t).1 =
      Except.ok "Email успешно подтвержден" ∧
    (login (verify_email (register db email pw t nid).2 t).2 cache
        email pw now).1 =
      Except.ok (create_access_token [("sub", email)] none now,
                 create_refresh_token [("sub", email)] none now) := by
  have hva := verify_email_after_register db email pw t nid hemail hfresh
  refine ⟨?_, by rw [hva], ?_⟩
  · rw [register_state db email pw t nid hemail]
    have hfind : (db ++ [(⟨nid, email, get_password_hash pw, false, some t,
        none, none, none⟩ : User)]).find? (fun u => u.email = email) =
        some ⟨nid, email, get_password_hash pw, false, some t,
          none, none, none⟩ := by
      rw [find?_append_of_none hemail]; simp
    simp [login, hfind, verify_password]
  · rw [hva]
    have hfind : (db ++ [(⟨nid, email, get_password_hash pw, true, none,
        none, none, none⟩ : User)]).find? (fun u => u.email = email) =
        some ⟨nid, email, get_password_hash pw, true, none,
          none, none, none⟩ := by
      rw [find?_append_of_none hemail]; simp
    simp [login, hfind, verify_password]

/-- C3 witness: the register → login(403) → verify → login(200) run on
the concrete empty store with identity "a@x.com". -/
theorem login_gated_by_verification_witness :
    (login (register [] "a@x.com" "pw" "t1" 1).2 [] "a@x.com" "pw" 50).1 =
      Except.error ⟨403, "Email не подтвержден. Проверьте почту."⟩ ∧
    (verify_email (register [] "a@x.com" "pw" "t1" 1).2 "t1").1 =
      Except.ok "Email успешно подтвержден" ∧
    (login (verify_email (register [] "a@x.com" "pw" "t1" 1).2 "t1").2 []
        "a@x.com" "pw" 50).1 =
      Except.ok (create_access_token [("sub", "a@x.com")] none 50,
                 create_refresh_token [("sub", "a@x.com")] none 50) :=
  login_gated_by_verification [] [] "a@x.com" "pw" "t1" 1 50 rfl (by simp)

/-- C5: a reset token is single-use — for an account holding reset token
t with unexpired expiry (and t held by no other account), a successful
`reset_password` clears the stored reset token and its expiry in the
same operation, and a second `reset_password` with the same token t then
fails with 400 InvalidToken, at any later time and cache state. -/
theorem reset_token_single_use (dbL dbR : List User) (cache : Cache)
    (u : User) (t np : String) (e now : Nat)
    (hL : ∀ v ∈ dbL, ¬ v.reset_token = some t)
    (hR : ∀ v ∈ dbR, ¬ v.reset_token = some t)
    (htok : u.reset_token = some t)
    (hexp : u.reset_token_expires = some e)
    (hlive : ¬ e < now) :
    (reset_password (dbL ++ u :: dbR) cache t np now).1 =
      some (Except.ok "Пароль успешно изменен") ∧
    (reset_password (dbL ++ u :: dbR) cache t np now).2.1 =
      dbL ++ { u with hashed_password := get_password_hash np,
                      reset_token := none,
                      reset_token_expires := none } :: dbR ∧
    (∀ (cache2 : Cache) (np2 : String) (now2 : Nat),
      (reset_password (reset_password (dbL ++ u :: dbR) cache t np now).2.1
          cache2 t np2 now2).1 =
        some (Except.error ⟨400, "Неверный или истекший токен"⟩)) := by
  have hLfalse : ∀ v ∈ dbL, (decide (v.reset_token = some t)) = false :=
    fun v hv => by simpa using hL v hv
  have hLf : dbL.find? (fun v => v.reset_token = some t) = none :=
    List.find?_eq_none.mpr (fun x hx => by simpa using hL x hx)
  have hfind : (dbL ++ u :: dbR).find? (fun v => v.reset_token = some t) =
      some u := by
    rw [find?_append_of_none hLf, List.find?_cons_of_pos]
    simp [htok]
  have hres : reset_password (dbL ++ u :: dbR) cache t np now =
      (some (Except.ok "Пароль успешно изменен"),
       dbL ++ { u with hashed_password := get_password_hash np,
                       reset_token := none,
                       reset_token_expires := none } :: dbR,
       delete_cached_user cache u.email) := by
    unfold reset_password
    rw [hfind]
    simp only [hexp]
    rw [if_neg hlive, updateFirst_append_of_none _ hLfalse]
    simp [updateFirst, htok]
  refine ⟨by rw [hres], by rw [hres], ?_⟩
  intro cache2 np2 now2
  rw [hres]
  apply reset_password_invalid_token
  intro v hv
  simp only [List.mem_append, List.mem_cons] at hv
  rcases hv with hv | hv | hv
  · exact hL v hv
  · subst hv; simp
  · exact hR v hv

/-- C5 witness: the single-use theorem on a concrete one-user store
holding reset token "r1" with expiry 3650, consumed at time 100 and
replayed at time 101. -/
theorem reset_token_single_use_witness :
    (reset_password
        [⟨1, "a@x.com", "$2b$12$pw", true, none, some "r1", some 3650,
          none⟩] [] "r1" "np" 100).1 =
      some (Except.ok "Пароль успешно изменен") ∧
    (reset_password
        [⟨1, "a@x.com", "$2b$12$pw", true, none, some "r1", some 3650,
          none⟩] [] "r1" "np" 100).2.1 =
      [⟨1, "a@x.com", "$2b$12$np", true, none, none, none, none⟩] ∧
    (reset_password
        (reset_password
          [⟨1, "a@x.com", "$2b$12$pw", true, none, some "r1", some 3650,
            none⟩] [] "r1" "np" 100).2.1 [] "r1" "np2" 101).1 =
      some (Except.error ⟨400, "Неверный или истекший токен"⟩) := by
  have h := reset_token_single_use [] [] []
    ⟨1, "a@x.com", "$2b$12$pw", true, none, some "r1", some 3650, none⟩
    "r1" "np" 3650 100 (by simp) (by simp) rfl rfl (by decide)
  exact ⟨h.1, h.2.1, h.2.2 [] "np2" 101⟩

/-- C6: when the presented token matches a stored reset token whose
stored absolute expiry is earlier than the current time,
`reset_password` fails with 400 TokenExpired and leaves the store — in
particular the account's password hash — and the cache unchanged. -/
theorem reset_token_expired (dbL dbR : List User) (cache : Cache)
    (u : User) (t np : String) (e now : Nat)
    (hL : ∀ v ∈ dbL, ¬ v.reset_token = some t)
    (htok : u.reset_token = some t)
    (hexp : u.reset_token_expires = some e)
    (hpast : e < now) :
    reset_password (dbL ++ u :: dbR) cache t np now =
      (some (Except.error ⟨400, "Токен истек"⟩), dbL ++ u :: dbR, cache) := by
  have hLf : dbL.find? (fun v => v.reset_token = some t) = none :=
    List.find?_eq_none.mpr (fun x hx => by simpa using hL x hx)
  have hfind : (dbL ++ u :: dbR).find? (fun v => v.reset_token = some t) =
      some u := by
    rw [find?_append_of_none hLf, List.find?_cons_of_pos]
    simp [htok]
  unfold reset_password
  rw [hfind]
  simp only [hexp]
  rw [if_pos hpast]

/-- C6 witness: a reset token issued by `request_password_reset` at time
50 carries expiry 3650 (= 50 + 1 hour); consuming it at time 3651 — more
than 1 hour after issuance — fails with "Токен истек" and leaves the
store (password hash included) unchanged. -/
theorem reset_token_expired_witness :
    (request_password_reset
        [⟨1, "a@x.com", "$2b$12$pw", true, none, none, none, none⟩]
        "a@x.com" "r1" 50).2.1 =
      [⟨1, "a@x.com", "$2b$12$pw", true, none, some "r1", some 3650,
        none⟩] ∧
    reset_password
        [⟨1, "a@x.com", "$2b$12$pw", true, none, some "r1", some 3650,
          none⟩] [] "r1" "np" 3651 =
      (some (Except.error ⟨400, "Токен истек"⟩),
       [⟨1, "a@x.com", "$2b$12$pw", true, none, some "r1", some 3650,
         none⟩], []) :=
  ⟨rfl, reset_token_expired [] [] []
    ⟨1, "a@x.com", "$2b$12$pw", true, none, some "r1", some 3650, none⟩
    "r1" "np" 3650 3651 (by simp) rfl rfl (by decide)⟩

/-- C9: the identity cache never stores the password hash — the snapshot
dict written at login and at the resolver's cache fill, and the snapshot
dict written after an avatar upload, carry exactly the keys id, email,
is_verified and avatar_url (in particular no "hashed_password" key);
every cache entry present after `login`, `get_current_user` or
`upload_user_avatar` either was already in the cache or is such a
snapshot; and every account materialized from a cache hit carries an
empty password-hash field. -/
theorem cache_never_stores_password_hash :
    (∀ u : User, (userCacheDict u).map Prod.fst =
      ["id", "email", "is_verified", "avatar_url"]) ∧
    (∀ (u : User) (url : String), (avatarCacheDict u url).map Prod.fst =
      ["id", "email", "is_verified", "avatar_url"]) ∧
    (∀ u : User, jget (userCacheDict u) "hashed_password" = none) ∧
    (∀ (u : User) (url : String),
      jget (avatarCacheDict u url) "hashed_password" = none) ∧
    (∀ (db : List User) (cache : Cache) (un pw : String) (now : Nat)
       (k : String) (en : CacheEntry),
      (k, en) ∈ (login db cache un pw now).2 →
      (k, en) ∈ cache ∨ ∃ u : User, en.value = userCacheDict u) ∧
    (∀ (tok : Jwt) (db : List User) (cache : Cache) (now : Nat)
       (k : String) (en : CacheEntry),
      (k, en) ∈ (get_current_user tok db cache now).2 →
      (k, en) ∈ cache ∨ ∃ u : User, en.value = userCacheDict u) ∧
    (∀ (db : List User) (cache : Cache) (cu : User) (ct : String)
       (sz : Nat) (url : String) (now : Nat) (k : String)
       (en : CacheEntry),
      (k, en) ∈ (upload_user_avatar db cache cu ct sz url now).2.2 →
      (k, en) ∈ cache ∨ ∃ (u : User) (url2 : String),
        en.value = avatarCacheDict u url2) ∧
    (∀ (d : JDict) (u : User), userFromCache d = some u →
      u.hashed_password = "") := by
  refine ⟨fun u => rfl, fun u url => rfl, fun u => rfl, fun u url => rfl,
    ?_, ?_, ?_, fun d u h => userFromCache_no_password h⟩
  · intro db cache un pw now k en hmem
    rcases hfind : db.find? (fun u => u.email = un) with _ | u
    · simp only [login, hfind] at hmem; exact Or.inl hmem
    · by_cases hpw : verify_password pw u.hashed_password
      · by_cases hv : u.is_verified
        · simp only [login, hfind, hpw, hv] at hmem
          simp at hmem
          rcases mem_cache_user hmem with h | h
          · exact Or.inl h
          · exact Or.inr ⟨u, h⟩
        · simp [login, hfind, hpw, hv] at hmem; exact Or.inl hmem
      · simp [login, hfind, hpw] at hmem; exact Or.inl hmem
  · intro tok db cache now k en hmem
    rcases hdec : decode_token tok now with _ | payload
    · simp only [get_current_user, hdec] at hmem; exact Or.inl hmem
    · rcases hsub : payload.1.find? (fun p => p.1 = "sub") with _ | sp
      · simp only [get_current_user, hdec, hsub] at hmem; exact Or.inl hmem
      · rcases hhit : get_cached_user cache sp.2 now with _ | d
        · rcases hfind : db.find? (fun w => w.email = sp.2) with _ | u
          · simp only [get_current_user, hdec, hsub, hhit, hfind] at hmem
            exact Or.inl hmem
          · by_cases hv : u.is_verified
            · simp [get_current_user, hdec, hsub, hhit, hfind, hv] at hmem
              rcases mem_cache_user hmem with h | h
              · exact Or.inl h
              · exact Or.inr ⟨u, h⟩
            · simp [get_current_user, hdec, hsub, hhit, hfind, hv] at hmem
              exact Or.inl hmem
        · rcases hmat : userFromCache d with _ | u <;>
            simp only [get_current_user, hdec, hsub, hhit, hmat] at hmem <;>
            exact Or.inl hmem
  · intro db cache cu ct sz url now k en hmem
    by_cases hct : ct = "image/jpeg" ∨ ct = "image/png" ∨ ct = "image/jpg"
    · by_cases hsz : 5 * 1024 * 1024 < sz
      · simp [upload_user_avatar, hct, hsz] at hmem; exact Or.inl hmem
      · simp [upload_user_avatar, hct, hsz] at hmem
        rcases mem_cache_user hmem with h | h
        · exact Or.inl (mem_delete_cached_user h)
        · exact Or.inr ⟨cu, url, h⟩
    · simp [upload_user_avatar, hct] at hmem; exact Or.inl hmem

/-- C9 witness: the cache entry produced by a concrete successful login
is a password-free snapshot, and the account materialized from a
concrete cached snapshot has an empty password-hash field. -/
theorem cache_never_stores_password_hash_witness :
    (("a@x.com",
        (⟨userCacheDict ⟨1, "a@x.com", "$2b$12$pw", true, none, none, none,
          none⟩, 3700⟩ : CacheEntry)) ∈ ([] : Cache) ∨
      ∃ u : User,
        (⟨userCacheDict ⟨1, "a@x.com", "$2b$12$pw", true, none, none, none,
          none⟩, 3700⟩ : CacheEntry).value = userCacheDict u) ∧
    (⟨1, "a@x.com", "", true, none, none, none,
      none⟩ : User).hashed_password = "" := by
  constructor
  · exact cache_never_stores_password_hash.2.2.2.2.1
      [⟨1, "a@x.com", "$2b$12$pw", true, none, none, none, none⟩] []
      "a@x.com" "pw" 100 "a@x.com" _ (by decide)
  · exact cache_never_stores_password_hash.2.2.2.2.2.2.2
      (userCacheDict ⟨1, "a@x.com", "$2b$12$pw", true, none, none, none,
        none⟩) _ rfl

/-- C10: every store-mutating operation preserves the pairing invariant
"a row holds a reset token iff it holds a reset-token expiry" (`register`
creates the row with both absent, `verify_email` does not touch them,
`request_password_reset` sets both together, `reset_password` clears
both together, `upload_user_avatar` touches only the avatar; `login` and
`get_current_user` do not write the store at all), and under this
invariant `reset_password` never reaches the `NULL`-expiry comparison —
it never crashes. -/
theorem reset_pairing_invariant :
    (∀ (db : List User) (email pw t : String) (nid : Int),
      resetInv db → resetInv (register db email pw t nid).2) ∧
    (∀ (db : List User) (t : String),
      resetInv db → resetInv (verify_email db t).2) ∧
    (∀ (db : List User) (email rt : String) (now : Nat),
      resetInv db → resetInv (request_password_reset db email rt now).2.1) ∧
    (∀ (db : List User) (cache : Cache) (t np : String) (now : Nat),
      resetInv db → resetInv (reset_password db cache t np now).2.1) ∧
    (∀ (db : List User) (cache : Cache) (cu : User) (ct : String)
       (sz : Nat) (url : String) (now : Nat),
      resetInv db → resetInv (upload_user_avatar db cache cu ct sz
        url now).2.1) ∧
    (∀ (db : List User) (cache : Cache) (t np : String) (now : Nat),
      resetInv db → (reset_password db cache t np now).1 ≠ none) := by
  refine ⟨?_, ?_, ?_, ?_, ?_, ?_⟩
  · intro db email pw t nid h
    rcases hfind : db.find? (fun u => u.email = email) with _ | w
    · simp only [register, hfind]
      intro u hu
      rcases List.mem_append.mp hu with h1 | h1
      · exact h u h1
      · simp at h1; subst h1; rfl
    · simp only [register, hfind]; exact h
  · intro db t h
    rcases hfind : db.find? (fun u => u.verification_token = some t)
        with _ | w
    · simp only [verify_email, hfind]; exact h
    · by_cases hv : w.is_verified
      · simp only [verify_email, hfind, hv, if_true]; exact h
      · simp only [verify_email, hfind, hv, if_false]
        exact resetInv_updateFirst h (fun v hv hc => by simpa using hc)
  · intro db email rt now h
    rcases hfind : db.find? (fun u => u.email = email) with _ | w
    · simp only [request_password_reset, hfind]; exact h
    · simp only [request_password_reset, hfind]
      exact resetInv_updateFirst h (fun v hv hc => by simp)
  · intro db cache t np now h
    rcases hfind : db.find? (fun u => u.reset_token = some t) with _ | w
    · simp only [reset_password, hfind]; exact h
    · rcases hexp : w.reset_token_expires with _ | e
      · simp only [reset_password, hfind, hexp]; exact h
      · by_cases hlt : e < now
        · simp only [reset_password, hfind, hexp, if_pos hlt]; exact h
        · simp only [reset_password, hfind, hexp, if_neg hlt]
          exact resetInv_updateFirst h (fun v hv hc => by simp)
  · intro db cache cu ct sz url now h
    by_cases hct : ct = "image/jpeg" ∨ ct = "image/png" ∨ ct = "image/jpg"
    · by_cases hsz : 5 * 1024 * 1024 < sz
      · simp only [upload_user_avatar, hct, hsz]; simp [hsz]; exact h
      · simp only [upload_user_avatar, hct, hsz]; simp [hsz]
        exact resetInv_updateFirst h (fun v hv hc => by simpa using hc)
    · simp only [upload_user_avatar, hct, if_neg]; simp [hct]; exact h
  · intro db cache t np now h
    rcases hfind : db.find? (fun u => u.reset_token = some t) with _ | w
    · simp only [reset_password, hfind]; exact Option.some_ne_none _
    · have hw : w ∈ db := List.mem_of_find?_eq_some hfind
      have htok : w.reset_token = some t := by
        have := List.find?_some hfind; simpa using this
      have hpair := h w hw
      rw [htok] at hpair
      rcases hexp : w.reset_token_expires with _ | e
      · rw [hexp] at hpair; simp at hpair
      · by_cases hlt : e < now
        · simp only [reset_password, hfind, hexp, if_pos hlt]
          exact Option.some_ne_none _
        · simp only [reset_password, hfind, hexp, if_neg hlt]
          exact Option.some_ne_none _

/-- C10 witness: the preservation conjunct for `request_password_reset`
and the no-crash conjunct for `reset_password`, at concrete one-user
stores satisfying the invariant. -/
theorem reset_pairing_invariant_witness :
    resetInv (request_password_reset
      [⟨1, "a@x.com", "h", true, none, none, none, none⟩]
      "a@x.com" "r1" 50).2.1 ∧
    (reset_password
      [⟨1, "a@x.com", "h", true, none, some "r1", some 3650, none⟩]
      [] "r1" "np" 100).1 ≠ none :=
  ⟨reset_pairing_invariant.2.2.1
      [⟨1, "a@x.com", "h", true, none, none, none, none⟩]
      "a@x.com" "r1" 50 (by decide),
   reset_pairing_invariant.2.2.2.2.2
      [⟨1, "a@x.com", "h", true, none, some "r1", some 3650, none⟩]
      [] "r1" "np" 100 (by decide)⟩

end UpContacts
